import Mathlib

/-!
Verification of the simulations-platform repository.

This file gives a shallow embedding of the code that the claims are about:

* `floodns/external/analysis/analysis_bandwidth.py` — the analysis and
  verification engine (`preprocess_data`, `calc_flow_stats`,
  `calc_connection_stats`, `calc_link_stats`, `verify_results`,
  `write_statistics`, `analyze_run`);
* `routes/dashboard.py` — parameter validation
  (`validate_simulation_params`), the completion detector
  (`check_experiment_status`), the run-directory construction used by
  `run_simulation`, and the error behaviour of `run_simulation`;
* `floodns/external/simulation/main.py` — `local_run_single_job` and the
  2-layer topology generator (`create_2_layer_topology`,
  `build_2_layer_undirected_edges`).

Modelling decisions, stated once:

* Machine floats are modelled by exact rationals (ℚ).  The Python code only
  divides, compares, sums and interpolates its inputs; none of the verified
  claims depends on binary rounding.  The one non-rational quantity the code
  produces (a sample standard deviation, a square root) is carried
  symbolically by the constructor `StatVal.floatSqrt`; no claim inspects it.
* Pandas dataframes are modelled as Lists of typed records in file order.
  `load_simulation_csv` sorts the flow and connection frames, but every
  aggregate the claims mention (counts, sums, means, minima, maxima,
  percentiles-after-sorting, distinct counts) is invariant under row order,
  so the sort is not re-modelled.
* A dataframe produced by a missing or unparsable CSV is empty
  (`load_simulation_csv` catches every exception and substitutes an empty
  frame); we model each category's load outcome as an `Option (List _)`,
  `none` meaning the file was missing or malformed.
* Python dict `update` on the per-category stats dicts is `List.append` here:
  the key sets of the four categories are pairwise disjoint (prefixes
  `flow_`, `connection_`/`conn_`, `link_`, `verif_`), so no overwriting
  occurs; lookups are by `List.lookup`.
-/

namespace SimPlatform

/-!
String primitives.  Python's str.startswith / str.strip / str.lower and
sorted() are embedded over the character list of the string (Lean's core
String functions are byte-position based and do not reduce in the kernel;
these structural versions agree with them and with Python on the ASCII
strings this code handles).
-/

/-- Python s.startswith(pre). -/
def strStartsWith (s pre : String) : Bool := pre.data.isPrefixOf s.data

/-- ASCII lower-casing of one character (Python str.lower on ASCII). -/
def asciiToLower (c : Char) : Char :=
  if 65 ≤ c.toNat ∧ c.toNat ≤ 90 then Char.ofNat (c.toNat + 32) else c

/-- Python s.lower(). -/
def pyLower (s : String) : String := ⟨s.data.map asciiToLower⟩

/-- Python s.strip(): drop leading and trailing whitespace. -/
def pyStrip (s : String) : String :=
  ⟨((s.data.dropWhile Char.isWhitespace).reverse.dropWhile Char.isWhitespace).reverse⟩

/-- Code-point lexicographic ≤ on character lists (the order Python's
sorted() and ≤ use on strings). -/
def charListLe : List Char → List Char → Bool
  | [], _ => true
  | _ :: _, [] => false
  | a :: as, b :: bs =>
    if a.toNat < b.toNat then true
    else if b.toNat < a.toNat then false
    else charListLe as bs

/-- Python string ≤. -/
def strLe (a b : String) : Bool := charListLe a.data b.data

/-- Insert into a sorted list (stable: placed before the first element it
is ≤ to). -/
def insertSorted (le : α → α → Bool) (x : α) : List α → List α
  | [] => [x]
  | y :: ys => if le x y then x :: y :: ys else y :: insertSorted le x ys

/-- Stable insertion sort; on the inputs of this development it coincides
with Python's sorted(). -/
def sortBy (le : α → α → Bool) (xs : List α) : List α :=
  xs.foldr (insertSorted le) []

/-- A value stored in a Python statistics dictionary: int (counts, nunique),
float (exact rational value), a float that is the square root of a rational
(sample standard deviation — carried symbolically), NaN (std of a singleton
sample), or bool (verification outcomes). -/
inductive StatVal where
  | int (n : ℤ)
  | float (q : ℚ)
  | floatSqrt (q : ℚ)
  | nan
  | bool (b : Bool)
deriving Repr, DecidableEq

/-- A row of flow_info.csv, columns in declared order
(analysis_bandwidth.py lines 42-43), time/volume fields as loaded (raw). -/
structure FlowRec where
  flow_id : ℤ
  source_node_id : ℤ
  dest_node_id : ℤ
  path : String
  start_time : ℚ
  end_time : ℚ
  duration : ℚ
  amount_sent : ℚ
  average_bandwidth : ℚ
  metadata : String
deriving Repr, DecidableEq

/-- A row of connection_info.csv (analysis_bandwidth.py lines 45-47).
`completed` is the raw CSV cell, compared against the string "T" exactly as
the Python code compares the column against 'T'. -/
structure ConnRec where
  connection_id : ℤ
  source_node_id : ℤ
  dest_node_id : ℤ
  total_size : ℚ
  amount_sent : ℚ
  flow_list : String
  start_time : ℚ
  end_time : ℚ
  duration : ℚ
  average_bandwidth : ℚ
  completed : String
  metadata : String
deriving Repr, DecidableEq

/-- A row of link_info.csv (analysis_bandwidth.py lines 49-50). -/
structure LinkRec where
  link_id : ℤ
  source_id : ℤ
  target_id : ℤ
  start_time : ℚ
  end_time : ℚ
  duration : ℚ
  avg_utilization : ℚ
  avg_active_flows : ℚ
  metadata : String
deriving Repr, DecidableEq

/-- Unit conversion of one flow row (preprocess_data lines 146-153):
nanoseconds → seconds and raw volume → Gbit, all divided by 1e9. -/
def preprocessFlow (f : FlowRec) : FlowRec :=
  { f with
    duration := f.duration / 1000000000
    start_time := f.start_time / 1000000000
    end_time := f.end_time / 1000000000
    amount_sent := f.amount_sent / 1000000000 }

/-- Unit conversion of one connection row (preprocess_data lines 155-163). -/
def preprocessConn (c : ConnRec) : ConnRec :=
  { c with
    duration := c.duration / 1000000000
    start_time := c.start_time / 1000000000
    end_time := c.end_time / 1000000000
    total_size := c.total_size / 1000000000
    amount_sent := c.amount_sent / 1000000000 }

/-- Unit conversion of one link row (preprocess_data lines 165-170):
only the time fields are converted. -/
def preprocessLink (l : LinkRec) : LinkRec :=
  { l with
    duration := l.duration / 1000000000
    start_time := l.start_time / 1000000000
    end_time := l.end_time / 1000000000 }

/-- preprocess_data (analysis_bandwidth.py lines 99-172): filter inactive
links (kept iff avg_utilization > 0; the Python guard `inactive_count > 0`
only skips a filter that would be the identity), filter incomplete
connections when `completed_only`, then convert units.  Filters run on the
raw values, exactly as in the source (the filtered columns are not
unit-converted anyway). -/
def preprocess_data (flows : List FlowRec) (conns : List ConnRec)
    (links : List LinkRec) (filter_inactive : Bool) (completed_only : Bool) :
    List FlowRec × List ConnRec × List LinkRec :=
  let links := if filter_inactive
    then links.filter (fun l => decide (0 < l.avg_utilization)) else links
  let conns := if completed_only
    then conns.filter (fun c => c.completed == "T") else conns
  (flows.map preprocessFlow, conns.map preprocessConn, links.map preprocessLink)

/-- Per-flow throughput amount_sent / duration with non-finite results
dropped (calc_flow_stats lines 195-198): in IEEE arithmetic a zero duration
yields ±inf or NaN, which `replace` + `dropna` remove; a nonzero duration
always yields a finite quotient. -/
def flowThroughputs (flows : List FlowRec) : List ℚ :=
  flows.filterMap (fun f =>
    if f.duration = 0 then none else some (f.amount_sent / f.duration))

/-- Per-connection throughput with non-finite results dropped
(calc_connection_stats lines 246-249). -/
def connThroughputs (conns : List ConnRec) : List ℚ :=
  conns.filterMap (fun c =>
    if c.duration = 0 then none else some (c.amount_sent / c.duration))

/-- Ascending sort of a rational sample. -/
def sortedAsc (xs : List ℚ) : List ℚ :=
  sortBy (fun a b => decide (a ≤ b)) xs

def listSum (xs : List ℚ) : ℚ := xs.foldl (· + ·) 0

def listMean (xs : List ℚ) : ℚ := listSum xs / xs.length

def listMin (xs : List ℚ) : ℚ := xs.foldl min (xs.headD 0)

def listMax (xs : List ℚ) : ℚ := xs.foldl max (xs.headD 0)

/-- pandas Series.std(): sample standard deviation with ddof = 1, NaN for a
sample of fewer than two values.  The value is √variance; the exact variance
is carried symbolically. -/
def listStd (xs : List ℚ) : StatVal :=
  if xs.length < 2 then .nan
  else
    let m := listMean xs
    .floatSqrt (listSum (xs.map (fun x => (x - m) ^ 2)) / ((xs.length : ℚ) - 1))

/-- np.percentile with the default linear interpolation: on the ascending
sample a₀ … a_{n-1}, rank = p/100·(n-1), result
a_⌊rank⌋ + (rank-⌊rank⌋)·(a_{⌊rank⌋+1} - a_⌊rank⌋). -/
def np_percentile (xs : List ℚ) (p : ℚ) : ℚ :=
  let sorted := sortedAsc xs
  let n := sorted.length
  let rank := p * ((n : ℚ) - 1) / 100
  let i := (⌊rank⌋ : ℤ).toNat
  let frac := rank - (i : ℚ)
  let lo := sorted.getD i 0
  let hi := sorted.getD (min (i + 1) (n - 1)) 0
  lo + frac * (hi - lo)

/-- The percentile points [0.1, 1, 50, 99, 99.9] paired with the strings
Python's f-string renders for them in the dict keys. -/
def percentile_points : List (String × ℚ) :=
  [("0.1", 1/10), ("1", 1), ("50", 50), ("99", 99), ("99.9", 999/10)]

/-- The percentile sub-dictionary, keys pfx ++ p ++ "th". -/
def percentileEntries (pfx : String) (xs : List ℚ) : List (String × StatVal) :=
  percentile_points.map (fun pn => (pfx ++ pn.1 ++ "th", .float (np_percentile xs pn.2)))

/-- Count of distinct values (pandas nunique). -/
def nunique (xs : List ℤ) : ℕ := xs.dedup.length

/-- calc_flow_stats (analysis_bandwidth.py lines 174-223): empty frame or no
finite throughput → empty dict; otherwise the stats dict in insertion order
(percentile keys appended last by stats.update). -/
def calc_flow_stats (flows : List FlowRec) : List (String × StatVal) :=
  if flows.isEmpty then []
  else
    let throughputs := flowThroughputs flows
    if throughputs.isEmpty then []
    else
      [("flow_count", .int flows.length),
       ("flow_total_bandwidth", .float (listSum throughputs)),
       ("flow_throughput_mean", .float (listMean throughputs)),
       ("flow_throughput_std", listStd throughputs),
       ("flow_throughput_min", .float (listMin throughputs)),
       ("flow_throughput_max", .float (listMax throughputs)),
       ("flow_unique_sources", .int (nunique (flows.map (·.source_node_id)))),
       ("flow_unique_targets", .int (nunique (flows.map (·.dest_node_id))))]
      ++ percentileEntries "flow_throughput_" throughputs

/-- calc_connection_stats (analysis_bandwidth.py lines 225-284).  The
'completed' column always exists in this embedding, so completed_count and
completion_rate take the then-branch of the column check; the rate is
completed_count / len(df_conn) over exactly the frame this function
receives. -/
def calc_connection_stats (conns : List ConnRec) : List (String × StatVal) :=
  if conns.isEmpty then []
  else
    let throughputs := connThroughputs conns
    if throughputs.isEmpty then []
    else
      let completed_count := (conns.filter (fun c => c.completed == "T")).length
      let completion_rate : ℚ := (completed_count : ℚ) / (conns.length : ℚ)
      [("connection_count", .int conns.length),
       ("connection_completed_count", .int completed_count),
       ("connection_completion_rate", .float completion_rate),
       ("connection_total_bandwidth", .float (listSum throughputs)),
       ("connection_throughput_mean", .float (listMean throughputs)),
       ("connection_throughput_std", listStd throughputs),
       ("connection_throughput_min", .float (listMin throughputs)),
       ("connection_throughput_max", .float (listMax throughputs)),
       ("connection_unique_sources", .int (nunique (conns.map (·.source_node_id)))),
       ("connection_unique_targets", .int (nunique (conns.map (·.dest_node_id))))]
      ++ percentileEntries "conn_throughput_" throughputs

/-- calc_link_stats (analysis_bandwidth.py lines 286-329). -/
def calc_link_stats (links : List LinkRec) : List (String × StatVal) :=
  if links.isEmpty then []
  else
    let utilization := links.map (·.avg_utilization)
    [("link_count", .int links.length),
     ("link_active_count", .int (utilization.filter (fun u => decide (0 < u))).length),
     ("link_inactive_count", .int (utilization.filter (fun u => decide (u = 0))).length),
     ("link_utilization_mean", .float (listMean utilization)),
     ("link_utilization_std", listStd utilization),
     ("link_utilization_min", .float (listMin utilization)),
     ("link_utilization_max", .float (listMax utilization)),
     ("link_unique_sources", .int (nunique (links.map (·.source_id)))),
     ("link_unique_targets", .int (nunique (links.map (·.target_id))))]
    ++ percentileEntries "link_utilization_" utilization

/-- verify_results (analysis_bandwidth.py lines 331-387): each check is an
independent boolean, emitted only when its underlying data is present; the
function only builds a dict, it never raises. -/
def verify_results (flows : List FlowRec) (conns : List ConnRec)
    (links : List LinkRec) (flow_precision : ℚ) : List (String × Bool) :=
  (if links.isEmpty then []
   else [("link_capacity_valid",
          links.all (fun l => decide (l.avg_utilization ≤ 1 + 1/1000000)))])
  ++ (if flows.isEmpty then []
      else [("flow_bandwidth_valid",
             flows.all (fun f => decide (0 ≤ f.average_bandwidth)))])
  ++ (if conns.isEmpty then []
      else [("connection_bandwidth_valid",
             conns.all (fun c => decide (0 ≤ c.average_bandwidth)))])
  ++ (if conns.isEmpty then []
      else
        let completed_df := conns.filter (fun c => c.completed == "T")
        if completed_df.isEmpty then []
        else [("connection_completion_valid",
               completed_df.all (fun c =>
                 decide (|c.total_size - c.amount_sent| ≤ flow_precision)))])

/-- Round to the nearest integer, ties to even (the rounding of Python's
fixed-point float formatting). -/
def roundHalfEven (q : ℚ) : ℤ :=
  let f := ⌊q⌋
  let r := q - (f : ℚ)
  if r < 1/2 then f
  else if (1 : ℚ)/2 < r then f + 1
  else if f % 2 = 0 then f else f + 1

def padLeftZeros (s : String) (w : ℕ) : String :=
  String.mk (List.replicate (w - s.length) '0') ++ s

/-- Python's "%.6f"-style rendering of an exact rational: six digits after
the decimal point.  (The sign of a negative value rounding to zero is not
re-modelled; no claim touches it.) -/
def formatFloat6 (q : ℚ) : String :=
  let n := roundHalfEven (q * 1000000)
  let sign := if n < 0 then "-" else ""
  let a := n.natAbs
  sign ++ toString (a / 1000000) ++ "." ++ padLeftZeros (toString (a % 1000000)) 6

/-- write_statistics value rendering (lines 423-427): floats through the
.6f format, everything else through str().  The symbolic square root of a
std is rendered symbolically; no claim inspects a std line. -/
def renderStatVal : StatVal → String
  | .int n => toString n
  | .float q => formatFloat6 q
  | .floatSqrt q => "sqrt(" ++ toString q ++ ")"
  | .nan => "nan"
  | .bool b => if b then "True" else "False"

/-- Python sorted() over dict items: ascending by key (keys are unique). -/
def sortByKey (kvs : List (String × StatVal)) : List (String × StatVal) :=
  sortBy (fun a b => strLe a.1 b.1) kvs

/-- One section of the statistics file (write_statistics lines 420-428): a
section with no entries is skipped entirely, otherwise a "## title" header,
the sorted key=value lines, and a blank line. -/
def sectionLines (title : String) (entries : List (String × StatVal)) : List String :=
  if entries.isEmpty then []
  else ("## " ++ title) ::
    ((sortByKey entries).map (fun kv => kv.1 ++ "=" ++ renderStatVal kv.2) ++ [""])

/-- write_statistics (analysis_bandwidth.py lines 389-431), as the list of
lines of the produced bandwidth_results.statistics file.  Note the section
filters: the Connection Statistics section keeps exactly the keys starting
with "conn_" — the underscore makes this prefix reject every key starting
with "connection_". -/
def write_statistics (stats : List (String × StatVal)) : List String :=
  ["# Bandwidth Analysis Results", "# =======================", ""]
  ++ sectionLines "Flow Statistics" (stats.filter (fun kv => strStartsWith kv.1 "flow_"))
  ++ sectionLines "Connection Statistics" (stats.filter (fun kv => strStartsWith kv.1 "conn_"))
  ++ sectionLines "Link Statistics" (stats.filter (fun kv => strStartsWith kv.1 "link_"))
  ++ sectionLines "Verification Results" (stats.filter (fun kv => strStartsWith kv.1 "verif_"))

/-- analyze_run (analysis_bandwidth.py lines 433-498): load (none = missing
or malformed file → empty frame), preprocess, aggregate the three
categories, verify (keys prefixed "verif_"), and return the merged stats
dict.  The merged dict is the concatenation because the category key sets
are pairwise disjoint. -/
def analyze_run (flow_file : Option (List FlowRec)) (conn_file : Option (List ConnRec))
    (link_file : Option (List LinkRec)) (filter_inactive : Bool)
    (completed_only : Bool) (flow_precision : ℚ) : List (String × StatVal) :=
  let df0 := (flow_file.getD [], conn_file.getD [], link_file.getD [])
  let dfs := preprocess_data df0.1 df0.2.1 df0.2.2 filter_inactive completed_only
  calc_flow_stats dfs.1
  ++ calc_connection_stats dfs.2.1
  ++ calc_link_stats dfs.2.2
  ++ (verify_results dfs.1 dfs.2.1 dfs.2.2 flow_precision).map
       (fun kv => ("verif_" ++ kv.1, StatVal.bool kv.2))

/-- The ring-size parameter: an integer, or the sentinel "different". -/
inductive RingSize where
  | size (n : ℤ)
  | different
deriving Repr, DecidableEq

/-- Valid option lists (routes/valid_options.py and the identical inline
lists in validate_simulation_params, routes/dashboard.py lines 117-122). -/
def valid_num_jobs : List ℤ := [1, 2, 3, 4, 5]

def valid_num_cores : List ℤ := [0, 1, 4, 8]

/-- The integer members of valid_ring_sizes = [2, 4, 8, "different"]; the
string member can only be matched by the "different" sentinel itself. -/
def valid_ring_size_ints : List ℤ := [2, 4, 8]

def valid_routing_algorithms : List String :=
  ["ecmp", "ilp_solver", "simulated_annealing", "edge_coloring", "mcvlc"]

def valid_seeds : List ℤ := [0, 42, 200, 404, 1234]

def valid_models : List String := ["BLOOM", "GPT_3", "LLAMA2_70B"]

/-- `model in valid_models` where model may be Python None (None is in no
list of strings). -/
def modelIsValid (model : Option String) : Bool :=
  match model with
  | some m => valid_models.contains m
  | none => false

/-- `ring_size_param not in valid_ring_sizes and ring_size != "different"`
(dashboard.py line 132): false for the sentinel, membership test on the
integer members otherwise. -/
def ringSizeNotValid (r : RingSize) : Bool :=
  match r with
  | .different => false
  | .size n => !(valid_ring_size_ints.contains n)

/-- `ring_size_param not in l and ring_size_param != "different"`
(dashboard.py lines 147 and 150). -/
def ringSizeNotIn (r : RingSize) (l : List ℤ) : Bool :=
  match r with
  | .different => false
  | .size n => !(l.contains n)

/-- validate_simulation_params (routes/dashboard.py lines 113-153): the
sequential guard chain, first failing guard wins; note there is no guard
rejecting a present model when num_jobs > 1 (lines 141-145 both fire only
when num_jobs == 1). -/
def validate_simulation_params (num_jobs num_cores : ℤ) (ring_size : RingSize)
    (routing : String) (seed : ℤ) (model : Option String) : Bool × String :=
  if !(valid_num_jobs.contains num_jobs) then
    (false, "Invalid number of jobs. Must be between 1 and 5.")
  else if !(valid_num_cores.contains num_cores) then
    (false, "Invalid number of core failures. Must be 0, 1, 4, or 8.")
  else if ringSizeNotValid ring_size then
    (false, "Invalid ring size. Must be 2, 4, 8, or 'different'.")
  else if !(valid_routing_algorithms.contains routing) then
    (false, "Invalid routing algorithm.")
  else if !(valid_seeds.contains seed) then
    (false, "Invalid seed. Must be 0, 42, 200, 404, or 1234.")
  else if !(modelIsValid model) && num_jobs == 1 then
    (false, "Invalid model. Must be BLOOM, GPT_3, or LLAMA2_70B for a single job.")
  else if num_jobs == 1 && !(modelIsValid model) then
    (false, "Invalid model. Must be BLOOM, GPT_3, or LLAMA2_70B for a single job.")
  else if ([1, 2, 3] : List ℤ).contains num_jobs && ringSizeNotIn ring_size [2, 8] then
    (false, "Invalid ring size for 1-3 jobs. Must be 2, 8, or 'different'.")
  else if ([4, 5] : List ℤ).contains num_jobs && ringSizeNotIn ring_size [2, 4] then
    (false, "Invalid ring size for 4-5 jobs. Must be 2, 4, or 'different'.")
  else (true, "Parameters are valid.")

/-- check_experiment_status (routes/dashboard.py lines 81-100, and the
identical logic in routes/experiment_details.py): the sentinel file
run_finished.txt is modelled as `Option String` — `none` when the file does
not exist.  Exists → read, strip, lower, compare to "yes"; anything else,
including absence, is False; every exception path also returns False, so the
function is total. -/
def check_experiment_status (sentinel : Option String) : Bool :=
  match sentinel with
  | some content => pyLower (pyStrip content) == "yes"
  | none => false

/-- An experiment parameter tuple as passed to run_simulation. -/
structure SimParams where
  seed : ℤ
  num_jobs : ℤ
  num_cores : ℤ
  ring_size : RingSize
  routing : String
  model : Option String
deriving Repr, DecidableEq

/-- `"different_ring_size" if ring_size == "different" else f"ring_size_{n}"`
(dashboard.py line 258). -/
def ring_size_path_part (r : RingSize) : String :=
  match r with
  | .different => "different_ring_size"
  | .size n => "ring_size_" ++ toString n

/-- The run-directory path segments below FLOODNS_ROOT/runs that
run_simulation joins (routes/dashboard.py lines 256-307; the identical
single-job path is also built in local_run_single_job, simulation/main.py
lines 23-25).  Three branches: single job (model segment included),
multiple jobs with the "different" sentinel, multiple jobs with one ring
size.  A single-job call always carries a model string in the source; the
`getD` default is unreachable for such tuples. -/
def run_dir_segments (p : SimParams) : List String :=
  let seedSeg := "seed_" ++ toString p.seed
  let coresSeg := toString p.num_cores ++ "_core_failures"
  if p.num_jobs == 1 then
    [seedSeg, "concurrent_jobs_1", coresSeg, ring_size_path_part p.ring_size,
     p.model.getD "None", p.routing]
  else if p.ring_size == RingSize.different then
    [seedSeg, "concurrent_jobs_" ++ toString p.num_jobs, coresSeg,
     "different_ring_size", p.routing]
  else
    [seedSeg, "concurrent_jobs_" ++ toString p.num_jobs, coresSeg,
     ring_size_path_part p.ring_size, p.routing]

/-- The experiment record fields touched by run_simulation.  run_dir holds
the resolved path segments (below FLOODNS_ROOT/runs). -/
structure ExperimentRecord where
  state : String
  run_dir : Option (List String)
  error_message : Option String
deriving Repr, DecidableEq

/-- local_run_single_job (simulation/main.py lines 14-82), reduced to its
launch outcome: when the simulator jar does not exist the function prints a
message and returns None — no process is spawned and no exception escapes
(the whole body is wrapped in try/except returning None).  A present jar
spawns the process (modelled as `some ()`). -/
def local_run_single_job (jar_exists : Bool) : Option Unit :=
  if jar_exists then some () else none

/-- run_simulation (routes/dashboard.py lines 236-338) acting on the
record of an experiment already set to "Running" by its caller.  An
exception inside the try block reaches the except branch, which sets state
"Error" with an error_message; otherwise the resolved run_dir is persisted
and the state is left untouched.  Which branch runs:

* an unknown routing name makes the `Routing[routing]` enum lookup raise —
  Error;
* for a single-job tuple, the branch calls local_run_single_job, which
  swallows a missing jar (returns None, a result run_simulation never
  inspects) — no exception, run_dir persisted, state untouched;
* for a multi-job tuple, the branch calls local_run_multiple_jobs or
  local_run_multiple_jobs_different_ring_size; both are imported but
  defined nowhere in the source, so the call itself raises — Error,
  independent of the executable.  (Reading the absent launchers from the
  spec instead — "on failure to locate the executable, fails fast with
  LaunchError" — gives the same Error outcome.) -/
def run_simulation (rec : ExperimentRecord) (p : SimParams) (jar_exists : Bool) :
    ExperimentRecord :=
  if valid_routing_algorithms.contains p.routing then
    if p.num_jobs == 1 then
      { rec with run_dir := some (run_dir_segments p) }
    else
      { rec with state := "Error",
                 error_message := some "Error starting simulation: name not defined" }
  else
    { rec with state := "Error",
               error_message := some ("Error starting simulation: " ++ p.routing) }

/-- Python range(start, stop, step) for step > 0. -/
def pyRange (start stop step : ℕ) : List ℕ :=
  (List.range ((stop - start + step - 1) / step)).map (fun k => start + k * step)

/-- One server-to-ToR edge block `f"{server}:{server+radix-1}-{tor}"` of
build_2_layer_undirected_edges: hosts first..last attach to `tor`. -/
structure ServerBlock where
  first : ℕ
  last : ℕ
  tor : ℕ
deriving Repr, DecidableEq

/-- build_2_layer_undirected_edges (simulation/main.py lines 279-289), kept
as structured data instead of the rendered string: the ToR-to-core clique
ranges `(start_tor, end_tor)-(start_core, end_core)` and the list of server
blocks produced by `for server in range(start_server, end_server+1, radix)`
with the attached ToR counting up from start_tor. -/
def build_2_layer_undirected_edges (num_tors num_cores num_hosts radix : ℕ) :
    ((ℕ × ℕ) × (ℕ × ℕ)) × List ServerBlock :=
  let start_tor := 0
  let end_tor := num_tors - 1
  let start_core := num_tors
  let end_core := num_tors + num_cores - 1
  let start_server := num_tors + num_cores
  let end_server := num_tors + num_cores + num_hosts - 1
  let tor_core_edges := ((start_tor, end_tor), (start_core, end_core))
  let server_tor_edges :=
    ((pyRange start_server (end_server + 1) radix).enum).map
      (fun ik => ⟨ik.2, ik.2 + radix - 1, start_tor + ik.1⟩)
  (tor_core_edges, server_tor_edges)

/-- The topology.properties contents (create_2_layer_topology,
simulation/main.py lines 255-276), with the incl_range values as pairs. -/
structure Topology where
  num_nodes : ℕ
  num_undirected_edges : ℕ
  switches : ℕ × ℕ
  switches_which_are_tors : ℕ × ℕ
  cores : ℕ × ℕ
  servers : ℕ × ℕ
  tor_core_edges : (ℕ × ℕ) × (ℕ × ℕ)
  server_tor_blocks : List ServerBlock
  link_data_rate_bit_per_ns : ℕ
deriving Repr, DecidableEq

/-- create_2_layer_topology (simulation/main.py lines 255-276). -/
def create_2_layer_topology (num_tors : ℕ) : Topology :=
  let radix := num_tors / 2
  let num_cores := radix
  let num_hosts_under_tor := radix
  let num_hosts := num_tors * num_hosts_under_tor
  let num_switches := num_tors + num_cores
  let num_nodes := num_switches + num_hosts
  let num_edges := num_tors * (num_cores + num_hosts_under_tor)
  let edges := build_2_layer_undirected_edges num_tors num_cores num_hosts radix
  { num_nodes := num_nodes
    num_undirected_edges := num_edges
    switches := (0, num_switches - 1)
    switches_which_are_tors := (0, num_tors - 1)
    cores := (num_tors, num_switches - 1)
    servers := (num_switches, num_switches + num_hosts - 1)
    tor_core_edges := edges.1
    server_tor_blocks := edges.2
    link_data_rate_bit_per_ns := 100 }

/-- The connection rows of the repository's own test fixture
(test_bandwidth.py lines 40-53): connection 0 incomplete (total_size 10000,
amount_sent 5000), connection 1 completed with total_size 20000 and
amount_sent 15000, both with duration 1000 ns. -/
def connFixture : List ConnRec :=
  [⟨0, 1, 5, 10000, 5000, "0", 0, 1000, 1000, 5, "F", ""⟩,
   ⟨1, 3, 7, 20000, 15000, "2", 200, 1200, 1000, 15, "T", ""⟩]

/-- The first flow row of the repository's test fixture
(test_bandwidth.py lines 26-37): duration 1000 ns, amount_sent 5000 raw. -/
def flowFixture : List FlowRec :=
  [⟨0, 1, 5, "1-[0]->5", 0, 1000, 1000, 5000, 5, ""⟩]

/-- The keys calc_flow_stats can emit (in insertion order), for key-shape
reasoning. -/
def flowStatKeys : List String :=
  ["flow_count", "flow_total_bandwidth", "flow_throughput_mean",
   "flow_throughput_std", "flow_throughput_min", "flow_throughput_max",
   "flow_unique_sources", "flow_unique_targets",
   "flow_throughput_0.1th", "flow_throughput_1th", "flow_throughput_50th",
   "flow_throughput_99th", "flow_throughput_99.9th"]

/-- The keys calc_connection_stats can emit. -/
def connStatKeys : List String :=
  ["connection_count", "connection_completed_count",
   "connection_completion_rate", "connection_total_bandwidth",
   "connection_throughput_mean", "connection_throughput_std",
   "connection_throughput_min", "connection_throughput_max",
   "connection_unique_sources", "connection_unique_targets",
   "conn_throughput_0.1th", "conn_throughput_1th", "conn_throughput_50th",
   "conn_throughput_99th", "conn_throughput_99.9th"]

/-- The keys calc_link_stats can emit. -/
def linkStatKeys : List String :=
  ["link_count", "link_active_count", "link_inactive_count",
   "link_utilization_mean", "link_utilization_std", "link_utilization_min",
   "link_utilization_max", "link_unique_sources", "link_unique_targets",
   "link_utilization_0.1th", "link_utilization_1th", "link_utilization_50th",
   "link_utilization_99th", "link_utilization_99.9th"]

/-- The keys verify_results can emit (before the verif_ prefix is added). -/
def verifCheckKeys : List String :=
  ["link_capacity_valid", "flow_bandwidth_valid",
   "connection_bandwidth_valid", "connection_completion_valid"]

/-!  Theorems.  -/

/-- C8: the completion detector is a total boolean function of the sentinel
file: it returns true iff run_finished.txt exists and its content, stripped
of surrounding whitespace and lowercased, equals "yes"; file absence or any
other content yields false (the embedded function is total, so no exception
escapes). -/
theorem check_experiment_status_spec (sentinel : Option String) :
    check_experiment_status sentinel = true ↔
      ∃ s, sentinel = some s ∧ pyLower (pyStrip s) = "yes" := by
  cases sentinel with
  | none => simp [check_experiment_status]
  | some s => simp [check_experiment_status]

/-- C5: run-directory resolution is deterministic and nests the path
segments in the fixed order seed / job-count / core-failure-count /
ring-size / (model, exactly when num_jobs = 1) / routing; the tuple
(seed 42, 1 job, 0 core failures, ring size 2, ecmp, BLOOM) resolves to
seed_42 / concurrent_jobs_1 / 0_core_failures / ring_size_2 / BLOOM /
ecmp. -/
theorem run_dir_segments_spec :
    run_dir_segments ⟨42, 1, 0, .size 2, "ecmp", some "BLOOM"⟩ =
      ["seed_42", "concurrent_jobs_1", "0_core_failures", "ring_size_2",
       "BLOOM", "ecmp"] ∧
    (∀ p : SimParams, ∀ m : String, p.num_jobs = 1 → p.model = some m →
      run_dir_segments p =
        ["seed_" ++ toString p.seed, "concurrent_jobs_1",
         toString p.num_cores ++ "_core_failures",
         ring_size_path_part p.ring_size, m, p.routing]) ∧
    (∀ p : SimParams, p.num_jobs ≠ 1 →
      run_dir_segments p =
        ["seed_" ++ toString p.seed,
         "concurrent_jobs_" ++ toString p.num_jobs,
         toString p.num_cores ++ "_core_failures",
         ring_size_path_part p.ring_size, p.routing]) ∧
    (∀ p q : SimParams, p = q → run_dir_segments p = run_dir_segments q) := by
  refine ⟨by decide, ?_, ?_, ?_⟩
  · intro p m h1 h2
    simp [run_dir_segments, h1, h2]
  · intro p h1
    cases hr : p.ring_size <;>
      simp [run_dir_segments, h1, hr, ring_size_path_part]
  · intro p q h
    rw [h]

/-- Witness for run_dir_segments_spec at concrete tuples. -/
theorem run_dir_segments_spec_witness :
    run_dir_segments ⟨0, 3, 1, .different, "mcvlc", none⟩ =
      ["seed_" ++ toString (0 : ℤ), "concurrent_jobs_" ++ toString (3 : ℤ),
       toString (1 : ℤ) ++ "_core_failures", "different_ring_size", "mcvlc"] :=
  run_dir_segments_spec.2.2.1 ⟨0, 3, 1, .different, "mcvlc", none⟩ (by decide)

/-- C4 counterexample: with the simulator executable missing, the launch of
a single-job tuple returns none without raising, and run_simulation leaves
this record in state "Running" with no error_message (it even persists
run_dir) — the claimed transition to an Error state with a message does not
happen. -/
theorem missing_jar_keeps_running_counterexample :
    local_run_single_job false = none ∧
    run_simulation ⟨"Running", none, none⟩
        ⟨42, 1, 0, .size 2, "ecmp", some "BLOOM"⟩ false =
      ⟨"Running",
       some ["seed_42", "concurrent_jobs_1", "0_core_failures", "ring_size_2",
             "BLOOM", "ecmp"], none⟩ ∧
    ("Running" : String) ≠ "Error" := by
  refine ⟨rfl, by decide, by decide⟩

/-- C4 amended: when the executable cannot be located, local_run_single_job
logs and returns None before any process is spawned (no exception).  For a
routing name the Routing enum accepts, run_simulation then treats a
single-job tuple as a success regardless of the missing executable — the
record keeps its state and error_message and the resolved run_dir is
persisted — while a multi-job tuple always reaches the except branch
(the multi-job launchers are imported but defined nowhere in the source, so
the call itself raises) and sets state "Error" with an error_message,
again independent of the executable. -/
theorem missing_jar_behavior (rec : ExperimentRecord) (p : SimParams)
    (hrt : valid_routing_algorithms.contains p.routing = true) :
    local_run_single_job false = none ∧
    (p.num_jobs = 1 →
      run_simulation rec p false = { rec with run_dir := some (run_dir_segments p) }) ∧
    (p.num_jobs ≠ 1 →
      (run_simulation rec p false).state = "Error" ∧
      (run_simulation rec p false).error_message ≠ none) := by
  refine ⟨rfl, ?_, ?_⟩
  · intro h
    unfold run_simulation
    rw [hrt]
    simp [h]
  · intro h
    unfold run_simulation
    rw [hrt, beq_eq_false_iff_ne.mpr h]
    simp

/-- Witness for missing_jar_behavior at a single-job and a multi-job
tuple. -/
theorem missing_jar_behavior_witness :
    valid_routing_algorithms.contains "ecmp" = true ∧
    (local_run_single_job false = none ∧
     run_simulation ⟨"Running", none, none⟩
         ⟨0, 1, 0, .size 2, "ecmp", some "GPT_3"⟩ false =
       { state := "Running",
         run_dir := some (run_dir_segments ⟨0, 1, 0, .size 2, "ecmp", some "GPT_3"⟩),
         error_message := none }) ∧
    ((run_simulation ⟨"Running", none, none⟩ ⟨0, 2, 0, .size 2, "ecmp", none⟩
        false).state = "Error" ∧
     (run_simulation ⟨"Running", none, none⟩ ⟨0, 2, 0, .size 2, "ecmp", none⟩
        false).error_message ≠ none) :=
  ⟨by decide,
   ⟨(missing_jar_behavior ⟨"Running", none, none⟩
       ⟨0, 1, 0, .size 2, "ecmp", some "GPT_3"⟩ (by decide)).1,
    (missing_jar_behavior ⟨"Running", none, none⟩
       ⟨0, 1, 0, .size 2, "ecmp", some "GPT_3"⟩ (by decide)).2.1 rfl⟩,
   (missing_jar_behavior ⟨"Running", none, none⟩ ⟨0, 2, 0, .size 2, "ecmp", none⟩
      (by decide)).2.2 (by decide)⟩

/-- C3 counterexample: a tuple with num_jobs = 2 that carries model BLOOM is
accepted by validate_simulation_params — the claimed rejection of a model on
multi-job tuples does not exist in the validator (callers strip the model
before calling it instead). -/
theorem validate_multijob_model_counterexample :
    (validate_simulation_params 2 0 (.size 2) "ecmp" 0 (some "BLOOM")).1 = true := by
  decide

/-- The guard characterization of validate_simulation_params: acceptance is
exactly the conjunction of the negated guards, in source order. -/
theorem validate_fst_eq (nj nc : ℤ) (r : RingSize) (rt : String) (sd : ℤ)
    (m : Option String) :
    (validate_simulation_params nj nc r rt sd m).1 =
      (valid_num_jobs.contains nj && valid_num_cores.contains nc &&
       !ringSizeNotValid r && valid_routing_algorithms.contains rt &&
       valid_seeds.contains sd &&
       !(!(modelIsValid m) && nj == 1) &&
       !(([1, 2, 3] : List ℤ).contains nj && ringSizeNotIn r [2, 8]) &&
       !(([4, 5] : List ℤ).contains nj && ringSizeNotIn r [2, 4])) := by
  unfold validate_simulation_params
  split_ifs with h1 h2 h3 h4 h5 h6 h7 h8 h9 <;> simp_all <;> tauto

/-- C3 amended: validation rejects ring_size 4 for num_jobs in {1,2,3},
ring_size 8 for num_jobs in {4,5}, and num_jobs = 1 without a valid model,
and accepts every tuple whose fields are in the valid option lists and that
satisfies the ring-size/job-count invariants and the single-job model
requirement — but it imposes no model-absence condition on multi-job
tuples (callers null the model before validating, so a multi-job tuple
carrying a model is accepted by the validator itself). -/
theorem validate_simulation_params_spec :
    (∀ nj nc rt sd m, ([1, 2, 3] : List ℤ).contains nj = true →
        (validate_simulation_params nj nc (.size 4) rt sd m).1 = false) ∧
    (∀ nj nc rt sd m, ([4, 5] : List ℤ).contains nj = true →
        (validate_simulation_params nj nc (.size 8) rt sd m).1 = false) ∧
    (∀ nc r rt sd m, modelIsValid m = false →
        (validate_simulation_params 1 nc r rt sd m).1 = false) ∧
    (∀ nj nc r rt sd m,
        valid_num_jobs.contains nj = true →
        valid_num_cores.contains nc = true →
        ringSizeNotValid r = false →
        valid_routing_algorithms.contains rt = true →
        valid_seeds.contains sd = true →
        (nj = 1 → modelIsValid m = true) →
        (([1, 2, 3] : List ℤ).contains nj = true → ringSizeNotIn r [2, 8] = false) →
        (([4, 5] : List ℤ).contains nj = true → ringSizeNotIn r [2, 4] = false) →
        (validate_simulation_params nj nc r rt sd m).1 = true) := by
  refine ⟨?_, ?_, ?_, ?_⟩
  · intro nj nc rt sd m h
    have h' : nj = 1 ∨ nj = 2 ∨ nj = 3 := by simpa using h
    rw [validate_fst_eq]
    rcases h' with h' | h' | h' <;> subst h' <;> simp [ringSizeNotIn]
  · intro nj nc rt sd m h
    have h' : nj = 4 ∨ nj = 5 := by simpa using h
    rw [validate_fst_eq]
    rcases h' with h' | h' <;> subst h' <;> simp [ringSizeNotIn]
  · intro nc r rt sd m h
    rw [validate_fst_eq]
    simp [h]
  · intro nj nc r rt sd m h1 h2 h3 h4 h5 h6 h7 h8
    rw [validate_fst_eq]
    have h2' : nc ∈ valid_num_cores := by simpa using h2
    have h4' : rt ∈ valid_routing_algorithms := by simpa using h4
    have h5' : sd ∈ valid_seeds := by simpa using h5
    have h' : nj = 1 ∨ nj = 2 ∨ nj = 3 ∨ nj = 4 ∨ nj = 5 := by
      simpa [valid_num_jobs] using h1
    rcases h' with h' | h' | h' | h' | h' <;> subst h'
    · simp [h2', h3, h4', h5', h6 rfl, h7 (by decide), valid_num_jobs]
    · simp [h2', h3, h4', h5', h7 (by decide), valid_num_jobs]
    · simp [h2', h3, h4', h5', h7 (by decide), valid_num_jobs]
    · simp [h2', h3, h4', h5', h8 (by decide), valid_num_jobs]
    · simp [h2', h3, h4', h5', h8 (by decide), valid_num_jobs]

/-- Witness for validate_simulation_params_spec. -/
theorem validate_simulation_params_spec_witness :
    (validate_simulation_params 2 0 (.size 4) "ecmp" 0 none).1 = false ∧
    (validate_simulation_params 4 0 (.size 8) "ecmp" 0 none).1 = false ∧
    (validate_simulation_params 1 0 (.size 2) "ecmp" 0 none).1 = false ∧
    (validate_simulation_params 5 8 (.size 4) "mcvlc" 1234 none).1 = true :=
  ⟨validate_simulation_params_spec.1 2 0 "ecmp" 0 none (by decide),
   validate_simulation_params_spec.2.1 4 0 "ecmp" 0 none (by decide),
   validate_simulation_params_spec.2.2.1 0 (.size 2) "ecmp" 0 none (by decide),
   validate_simulation_params_spec.2.2.2 5 8 (.size 4) "mcvlc" 1234 none
     (by decide) (by decide) (by decide) (by decide) (by decide)
     (by decide) (by decide) (by decide)⟩

/-- C2 counterexample: on the two-connection fixture (one completed with
total_size 20000 and amount_sent 15000, one incomplete), analyzing with
completed_only = true reports connection_completion_rate 1.0 — not the 0.5
the claim states: the rate is computed after the completed_only filter, not
over the unfiltered connection set. -/
theorem completion_rate_filtered_counterexample :
    (analyze_run none (some connFixture) none true true (1/1000000000)).lookup
        "connection_completion_rate" = some (.float 1) ∧
    StatVal.float 1 ≠ StatVal.float (1/2) := by
  with_unfolding_all decide

/-- C2 amended: with completed_only = true the connection aggregates cover
exactly the one completed connection and the reported completion rate is
1.0, because calc_connection_stats receives the already-filtered frame;
the rate 0.5 over the unfiltered pair is produced by the same pipeline with
completed_only = false. -/
theorem completion_rate_semantics :
    (analyze_run none (some connFixture) none true true (1/1000000000)).lookup
        "connection_count" = some (.int 1) ∧
    (analyze_run none (some connFixture) none true true (1/1000000000)).lookup
        "connection_completed_count" = some (.int 1) ∧
    (analyze_run none (some connFixture) none true true (1/1000000000)).lookup
        "connection_completion_rate" = some (.float 1) ∧
    (analyze_run none (some connFixture) none true false (1/1000000000)).lookup
        "connection_count" = some (.int 2) ∧
    (analyze_run none (some connFixture) none true false (1/1000000000)).lookup
        "connection_completion_rate" = some (.float (1/2)) := by
  with_unfolding_all decide

/-- Bool.all of a pointwise decide is the decide of the bounded ∀. -/
theorem all_decide_eq {α : Type} (l : List α) (p : α → Prop) [DecidablePred p] :
    l.all (fun x => decide (p x)) = decide (∀ x ∈ l, p x) := by
  induction l with
  | nil => simp
  | cons a t ih => simp [List.all_cons, ih]

/-- Bool.all of a pointwise guarded decide is the decide of the guarded ∀. -/
theorem all_imp_decide_eq {α : Type} (l : List α) (p q : α → Prop)
    [DecidablePred p] [DecidablePred q] :
    l.all (fun x => !decide (p x) || decide (q x)) = decide (∀ x ∈ l, p x → q x) := by
  induction l with
  | nil => simp
  | cons a t ih => by_cases hp : p a <;> simp [hp, ih]

/-- all over the completed-filter equals the decide of the guarded ∀. -/
theorem filter_all_eq_decide (conns : List ConnRec) (p : ConnRec → Prop)
    [DecidablePred p] :
    (conns.filter (fun c => c.completed == "T")).all (fun c => decide (p c)) =
      decide (∀ c ∈ conns, c.completed = "T" → p c) := by
  induction conns with
  | nil => simp
  | cons a t ih =>
    by_cases h : a.completed = "T" <;> simp [List.filter_cons, h, ih]

/-- C6: verification emits each invariant check as an independent boolean
and emits no key for a check whose data is absent: link_capacity_valid is
present iff some link row exists and is true iff every link's
avg_utilization is ≤ 1 + 1e-6; flow_bandwidth_valid and
connection_bandwidth_valid are present iff the respective frame is
nonempty and true iff every average_bandwidth is ≥ 0;
connection_completion_valid is present iff some completed connection
exists and is true iff every completed connection has
|total_size − amount_sent| ≤ precision.  verify_results is a total
function: a false check is recorded as a value, nothing is raised. -/
theorem verify_results_spec (flows : List FlowRec) (conns : List ConnRec)
    (links : List LinkRec) (prec : ℚ) :
    ((links = [] →
        (verify_results flows conns links prec).lookup "link_capacity_valid" = none) ∧
     (links ≠ [] →
        (verify_results flows conns links prec).lookup "link_capacity_valid" =
          some (decide (∀ l ∈ links, l.avg_utilization ≤ 1 + 1/1000000)))) ∧
    ((flows = [] →
        (verify_results flows conns links prec).lookup "flow_bandwidth_valid" = none) ∧
     (flows ≠ [] →
        (verify_results flows conns links prec).lookup "flow_bandwidth_valid" =
          some (decide (∀ f ∈ flows, 0 ≤ f.average_bandwidth)))) ∧
    ((conns = [] →
        (verify_results flows conns links prec).lookup "connection_bandwidth_valid" = none) ∧
     (conns ≠ [] →
        (verify_results flows conns links prec).lookup "connection_bandwidth_valid" =
          some (decide (∀ c ∈ conns, 0 ≤ c.average_bandwidth)))) ∧
    ((conns.filter (fun c => c.completed == "T") = [] →
        (verify_results flows conns links prec).lookup "connection_completion_valid" = none) ∧
     (conns.filter (fun c => c.completed == "T") ≠ [] →
        (verify_results flows conns links prec).lookup "connection_completion_valid" =
          some (decide (∀ c ∈ conns, c.completed = "T" →
            |c.total_size - c.amount_sent| ≤ prec)))) := by
  refine ⟨⟨?_, ?_⟩, ⟨?_, ?_⟩, ⟨?_, ?_⟩, ⟨?_, ?_⟩⟩ <;> intro h
  all_goals
    unfold verify_results
  · simp only [h]
    rcases flows with _ | ⟨f, fs⟩ <;> rcases conns with _ | ⟨c, cs⟩ <;>
      simp [List.lookup]
  · rcases links with _ | ⟨l, ls⟩
    · exact absurd rfl h
    · simp [List.lookup, all_decide_eq]
  · simp only [h]
    rcases links with _ | ⟨l, ls⟩ <;> rcases conns with _ | ⟨c, cs⟩ <;>
      simp [List.lookup]
  · rcases flows with _ | ⟨f, fs⟩
    · exact absurd rfl h
    · rcases links with _ | ⟨l, ls⟩ <;> simp [List.lookup, all_decide_eq]
  · simp only [h]
    rcases links with _ | ⟨l, ls⟩ <;> rcases flows with _ | ⟨f, fs⟩ <;>
      simp [List.lookup]
  · rcases conns with _ | ⟨c, cs⟩
    · exact absurd rfl h
    · rcases links with _ | ⟨l, ls⟩ <;> rcases flows with _ | ⟨f, fs⟩ <;>
      simp [List.lookup, all_decide_eq]
  · rcases conns with _ | ⟨c, cs⟩ <;>
      rcases links with _ | ⟨l, ls⟩ <;> rcases flows with _ | ⟨f, fs⟩ <;>
      simp [List.lookup, h]
  · have hne : (conns.filter (fun c => c.completed == "T")).isEmpty = false := by
      rcases hx : conns.filter (fun c => c.completed == "T") with _ | _
      · exact absurd hx h
      · simp [hx]
    rcases conns with _ | ⟨c, cs⟩
    · simp at hne
    · rcases links with _ | ⟨l, ls⟩ <;> rcases flows with _ | ⟨f, fs⟩ <;>
      simp [List.lookup, hne, filter_all_eq_decide, all_imp_decide_eq]

/-- Witness for verify_results_spec on the connection fixture. -/
theorem verify_results_spec_witness :
    (verify_results [] connFixture [] 1).lookup "link_capacity_valid" = none ∧
    (verify_results [] connFixture [] 1).lookup "connection_bandwidth_valid" =
      some (decide (∀ c ∈ connFixture, 0 ≤ c.average_bandwidth)) ∧
    (verify_results [] connFixture [] 1).lookup "connection_completion_valid" =
      some (decide (∀ c ∈ connFixture, c.completed = "T" →
        |c.total_size - c.amount_sent| ≤ 1)) :=
  ⟨(verify_results_spec [] connFixture [] 1).1.1 rfl,
   (verify_results_spec [] connFixture [] 1).2.2.1.2 (by decide),
   (verify_results_spec [] connFixture [] 1).2.2.2.2 (by decide)⟩

/-- Association-list lookup distributes over append. -/
theorem lookup_append (l₁ l₂ : List (String × StatVal)) (k : String) :
    (l₁ ++ l₂).lookup k = ((l₁.lookup k).orElse fun _ => l₂.lookup k) := by
  induction l₁ with
  | nil => rfl
  | cons kv t ih =>
    rcases kv with ⟨a, b⟩
    by_cases h : k == a
    · simp [List.lookup, h, Option.orElse]
    · simp only [List.cons_append, List.lookup]
      rw [Bool.not_eq_true] at h
      simp [h, ih]

/-- A key outside an association list's key set looks up to none. -/
theorem lookup_eq_none_of_not_mem_keys (l : List (String × StatVal)) (k : String)
    (h : k ∉ l.map Prod.fst) : l.lookup k = none := by
  induction l with
  | nil => rfl
  | cons kv t ih =>
    rcases kv with ⟨a, b⟩
    simp only [List.map_cons, List.mem_cons, not_or] at h
    simp [List.lookup, beq_eq_false_iff_ne.mpr h.1, ih h.2]

/-- Every key in a list whose members all fail a prefix check fails it. -/
theorem startsWith_false_of_mem (keys : List String) (pre k : String)
    (hall : keys.all (fun s => !(strStartsWith s pre)) = true) (hk : k ∈ keys) :
    strStartsWith k pre = false := by
  rw [List.all_eq_true] at hall
  simpa using hall k hk

/-- The key list of calc_flow_stats is empty or exactly flowStatKeys. -/
theorem calc_flow_stats_keys (flows : List FlowRec) :
    (calc_flow_stats flows).map Prod.fst = [] ∨
    (calc_flow_stats flows).map Prod.fst = flowStatKeys := by
  unfold calc_flow_stats
  split
  · exact Or.inl rfl
  · dsimp only
    split
    · exact Or.inl rfl
    · right
      simp [percentileEntries, percentile_points, flowStatKeys]

/-- The key list of calc_connection_stats is empty or exactly connStatKeys. -/
theorem calc_connection_stats_keys (conns : List ConnRec) :
    (calc_connection_stats conns).map Prod.fst = [] ∨
    (calc_connection_stats conns).map Prod.fst = connStatKeys := by
  unfold calc_connection_stats
  split
  · exact Or.inl rfl
  · dsimp only
    split
    · exact Or.inl rfl
    · right
      simp [percentileEntries, percentile_points, connStatKeys]

/-- The key list of calc_link_stats is empty or exactly linkStatKeys. -/
theorem calc_link_stats_keys (links : List LinkRec) :
    (calc_link_stats links).map Prod.fst = [] ∨
    (calc_link_stats links).map Prod.fst = linkStatKeys := by
  unfold calc_link_stats
  split
  · exact Or.inl rfl
  · right
    simp [percentileEntries, percentile_points, linkStatKeys]

/-- Every key verify_results emits is one of the four check keys. -/
theorem verify_results_keys (flows : List FlowRec) (conns : List ConnRec)
    (links : List LinkRec) (prec : ℚ) :
    ∀ kv ∈ verify_results flows conns links prec, kv.1 ∈ verifCheckKeys := by
  intro kv hkv
  unfold verify_results at hkv
  rcases List.mem_append.1 hkv with h | h
  · rcases List.mem_append.1 h with h | h
    · rcases List.mem_append.1 h with h | h
      · split at h
        · simp at h
        · simp only [List.mem_singleton] at h
          simp [h, verifCheckKeys]
      · split at h
        · simp at h
        · simp only [List.mem_singleton] at h
          simp [h, verifCheckKeys]
    · split at h
      · simp at h
      · simp only [List.mem_singleton] at h
        simp [h, verifCheckKeys]
  · split at h
    · simp at h
    · dsimp only at h
      split at h
      · simp at h
      · simp only [List.mem_singleton] at h
        simp [h, verifCheckKeys]

/-- Every key of the verif_-prefixed verification entries of the report. -/
theorem verif_mapped_keys (flows : List FlowRec) (conns : List ConnRec)
    (links : List LinkRec) (prec : ℚ) :
    ∀ kv ∈ (verify_results flows conns links prec).map
        (fun kv => ("verif_" ++ kv.1, StatVal.bool kv.2)),
      kv.1 ∈ verifCheckKeys.map (fun s => "verif_" ++ s) := by
  intro kv hkv
  rcases List.mem_map.1 hkv with ⟨kv0, h0, hEq⟩
  subst hEq
  exact List.mem_map_of_mem _ (verify_results_keys flows conns links prec kv0 h0)

/-- analyze_run with the flow file missing reduces to the connection, link
and verification parts (the flow frame is empty, so calc_flow_stats
contributes nothing). -/
theorem analyze_run_none_flow_eq (conns : List ConnRec) (links : List LinkRec)
    (fi co : Bool) (prec : ℚ) :
    analyze_run none (some conns) (some links) fi co prec =
      calc_connection_stats ((preprocess_data [] conns links fi co).2.1)
      ++ calc_link_stats ((preprocess_data [] conns links fi co).2.2)
      ++ (verify_results ((preprocess_data [] conns links fi co).1)
            ((preprocess_data [] conns links fi co).2.1)
            ((preprocess_data [] conns links fi co).2.2) prec).map
          (fun kv => ("verif_" ++ kv.1, StatVal.bool kv.2)) := rfl

/-- analyze_run is the concatenation of the four category parts. -/
theorem analyze_run_parts (ff : Option (List FlowRec))
    (cf : Option (List ConnRec)) (lf : Option (List LinkRec))
    (fi co : Bool) (prec : ℚ) :
    analyze_run ff cf lf fi co prec =
      calc_flow_stats ((preprocess_data (ff.getD []) (cf.getD []) (lf.getD []) fi co).1)
      ++ calc_connection_stats
          ((preprocess_data (ff.getD []) (cf.getD []) (lf.getD []) fi co).2.1)
      ++ calc_link_stats
          ((preprocess_data (ff.getD []) (cf.getD []) (lf.getD []) fi co).2.2)
      ++ (verify_results
            ((preprocess_data (ff.getD []) (cf.getD []) (lf.getD []) fi co).1)
            ((preprocess_data (ff.getD []) (cf.getD []) (lf.getD []) fi co).2.1)
            ((preprocess_data (ff.getD []) (cf.getD []) (lf.getD []) fi co).2.2)
            prec).map (fun kv => ("verif_" ++ kv.1, StatVal.bool kv.2)) := rfl

/-- analyze_run with the connection file missing, decomposed. -/
theorem analyze_run_none_conn_eq (flows : List FlowRec) (links : List LinkRec)
    (fi co : Bool) (prec : ℚ) :
    analyze_run (some flows) none (some links) fi co prec =
      calc_flow_stats ((preprocess_data flows [] links fi co).1)
      ++ calc_connection_stats ((preprocess_data flows [] links fi co).2.1)
      ++ calc_link_stats ((preprocess_data flows [] links fi co).2.2)
      ++ (verify_results ((preprocess_data flows [] links fi co).1)
            ((preprocess_data flows [] links fi co).2.1)
            ((preprocess_data flows [] links fi co).2.2) prec).map
          (fun kv => ("verif_" ++ kv.1, StatVal.bool kv.2)) := rfl

/-- analyze_run with the link file missing, decomposed. -/
theorem analyze_run_none_link_eq (flows : List FlowRec) (conns : List ConnRec)
    (fi co : Bool) (prec : ℚ) :
    analyze_run (some flows) (some conns) none fi co prec =
      calc_flow_stats ((preprocess_data flows conns [] fi co).1)
      ++ calc_connection_stats ((preprocess_data flows conns [] fi co).2.1)
      ++ calc_link_stats ((preprocess_data flows conns [] fi co).2.2)
      ++ (verify_results ((preprocess_data flows conns [] fi co).1)
            ((preprocess_data flows conns [] fi co).2.1)
            ((preprocess_data flows conns [] fi co).2.2) prec).map
          (fun kv => ("verif_" ++ kv.1, StatVal.bool kv.2)) := rfl

/-- A nonempty list has isEmpty false. -/
theorem isEmpty_false_of_ne_nil {α : Type} (l : List α) (h : l ≠ []) :
    l.isEmpty = false := by
  cases hx : l.isEmpty
  · rfl
  · exact absurd (by simpa using hx) h

/-- The flow_count entry of a nonempty flow stats dict. -/
theorem calc_flow_stats_lookup_count (flows : List FlowRec)
    (h1 : flows.isEmpty = false) (h2 : (flowThroughputs flows).isEmpty = false) :
    (calc_flow_stats flows).lookup "flow_count" = some (.int flows.length) := by
  unfold calc_flow_stats
  dsimp only
  rw [h1, h2]
  simp [List.lookup]

/-- The connection_count entry of a nonempty connection stats dict. -/
theorem calc_connection_stats_lookup_count (conns : List ConnRec)
    (h1 : conns.isEmpty = false) (h2 : (connThroughputs conns).isEmpty = false) :
    (calc_connection_stats conns).lookup "connection_count" =
      some (.int conns.length) := by
  unfold calc_connection_stats
  dsimp only
  rw [h1, h2]
  simp [List.lookup]

/-- The link_count entry of a nonempty link stats dict. -/
theorem calc_link_stats_lookup_count (links : List LinkRec)
    (h1 : links.isEmpty = false) :
    (calc_link_stats links).lookup "link_count" = some (.int links.length) := by
  unfold calc_link_stats
  dsimp only
  rw [h1]
  simp [List.lookup]

/-- A key outside flowStatKeys is absent from any flow stats dict. -/
theorem calc_flow_stats_lookup_none (flows : List FlowRec) (k : String)
    (hk : k ∉ flowStatKeys) : (calc_flow_stats flows).lookup k = none := by
  apply lookup_eq_none_of_not_mem_keys
  rcases calc_flow_stats_keys flows with he | he <;> rw [he]
  · simp
  · exact hk

/-- A key outside connStatKeys is absent from any connection stats dict. -/
theorem calc_connection_stats_lookup_none (conns : List ConnRec) (k : String)
    (hk : k ∉ connStatKeys) : (calc_connection_stats conns).lookup k = none := by
  apply lookup_eq_none_of_not_mem_keys
  rcases calc_connection_stats_keys conns with he | he <;> rw [he]
  · simp
  · exact hk

/-- Every key of an analyze_run report satisfies a predicate that holds on
each category's key list — a category whose stats part is empty needs no
key condition. -/
theorem analyze_keys_pred (ff : Option (List FlowRec)) (cf : Option (List ConnRec))
    (lf : Option (List LinkRec)) (fi co : Bool) (prec : ℚ) (p : String → Bool)
    (hf : calc_flow_stats ((preprocess_data (ff.getD []) (cf.getD []) (lf.getD [])
        fi co).1) = [] ∨ flowStatKeys.all p = true)
    (hcn : calc_connection_stats ((preprocess_data (ff.getD []) (cf.getD [])
        (lf.getD []) fi co).2.1) = [] ∨ connStatKeys.all p = true)
    (hl : calc_link_stats ((preprocess_data (ff.getD []) (cf.getD []) (lf.getD [])
        fi co).2.2) = [] ∨ linkStatKeys.all p = true)
    (hv : (verifCheckKeys.map (fun s => "verif_" ++ s)).all p = true) :
    (analyze_run ff cf lf fi co prec).all (fun kv => p kv.1) = true := by
  rw [List.all_eq_true]
  intro kv hkv
  rw [analyze_run_parts] at hkv
  rcases List.mem_append.1 hkv with h | h
  · rcases List.mem_append.1 h with h | h
    · rcases List.mem_append.1 h with h | h
      · rcases hf with hf | hf
        · rw [hf] at h
          simp at h
        · have hm := List.mem_map_of_mem Prod.fst h
          rcases calc_flow_stats_keys ((preprocess_data (ff.getD []) (cf.getD [])
              (lf.getD []) fi co).1) with he | he <;> rw [he] at hm
          · simp at hm
          · exact List.all_eq_true.1 hf kv.1 hm
      · rcases hcn with hcn | hcn
        · rw [hcn] at h
          simp at h
        · have hm := List.mem_map_of_mem Prod.fst h
          rcases calc_connection_stats_keys ((preprocess_data (ff.getD []) (cf.getD [])
              (lf.getD []) fi co).2.1) with he | he <;> rw [he] at hm
          · simp at hm
          · exact List.all_eq_true.1 hcn kv.1 hm
    · rcases hl with hl | hl
      · rw [hl] at h
        simp at h
      · have hm := List.mem_map_of_mem Prod.fst h
        rcases calc_link_stats_keys ((preprocess_data (ff.getD []) (cf.getD [])
            (lf.getD []) fi co).2.2) with he | he <;> rw [he] at hm
        · simp at hm
        · exact List.all_eq_true.1 hl kv.1 hm
  · exact List.all_eq_true.1 hv kv.1 (verif_mapped_keys _ _ _ _ kv h)

/-- C7: for each of the three input CSV files, a missing (or malformed)
file does not make analyze raise: that category loads as an empty
collection and the report simply lacks that category's keys, while the
other two categories are unaffected — their count keys are still reported
whenever their (preprocessed) data is nonempty (and, for flows and
connections, yields a finite throughput).  The three groups of three
conjuncts cover flow_info.csv, connection_info.csv and link_info.csv
missing in turn. -/
theorem analyze_run_missing_file (flows : List FlowRec) (conns : List ConnRec)
    (links : List LinkRec) (fi co : Bool) (prec : ℚ) :
    ((analyze_run none (some conns) (some links) fi co prec).all
        (fun kv => !(strStartsWith kv.1 "flow_")) = true) ∧
    ((preprocess_data [] conns links fi co).2.1 ≠ [] →
      connThroughputs ((preprocess_data [] conns links fi co).2.1) ≠ [] →
      (analyze_run none (some conns) (some links) fi co prec).lookup
          "connection_count" =
        some (.int ((preprocess_data [] conns links fi co).2.1.length))) ∧
    ((preprocess_data [] conns links fi co).2.2 ≠ [] →
      (analyze_run none (some conns) (some links) fi co prec).lookup
          "link_count" =
        some (.int ((preprocess_data [] conns links fi co).2.2.length))) ∧
    ((analyze_run (some flows) none (some links) fi co prec).all
        (fun kv => !(strStartsWith kv.1 "connection_") &&
          !(strStartsWith kv.1 "conn_")) = true) ∧
    ((preprocess_data flows [] links fi co).1 ≠ [] →
      flowThroughputs ((preprocess_data flows [] links fi co).1) ≠ [] →
      (analyze_run (some flows) none (some links) fi co prec).lookup
          "flow_count" =
        some (.int ((preprocess_data flows [] links fi co).1.length))) ∧
    ((preprocess_data flows [] links fi co).2.2 ≠ [] →
      (analyze_run (some flows) none (some links) fi co prec).lookup
          "link_count" =
        some (.int ((preprocess_data flows [] links fi co).2.2.length))) ∧
    ((analyze_run (some flows) (some conns) none fi co prec).all
        (fun kv => !(strStartsWith kv.1 "link_")) = true) ∧
    ((preprocess_data flows conns [] fi co).1 ≠ [] →
      flowThroughputs ((preprocess_data flows conns [] fi co).1) ≠ [] →
      (analyze_run (some flows) (some conns) none fi co prec).lookup
          "flow_count" =
        some (.int ((preprocess_data flows conns [] fi co).1.length))) ∧
    ((preprocess_data flows conns [] fi co).2.1 ≠ [] →
      connThroughputs ((preprocess_data flows conns [] fi co).2.1) ≠ [] →
      (analyze_run (some flows) (some conns) none fi co prec).lookup
          "connection_count" =
        some (.int ((preprocess_data flows conns [] fi co).2.1.length))) := by
  have hcc0 : calc_connection_stats ((preprocess_data flows [] links fi co).2.1)
      = [] := by
    rcases co <;> rfl
  have hll0 : calc_link_stats ((preprocess_data flows conns [] fi co).2.2)
      = [] := by
    rcases fi <;> rfl
  refine ⟨?_, ?_, ?_, ?_, ?_, ?_, ?_, ?_, ?_⟩
  · exact analyze_keys_pred none (some conns) (some links) fi co prec
      (fun s => !(strStartsWith s "flow_")) (Or.inl rfl) (Or.inr (by decide))
      (Or.inr (by decide)) (by decide)
  · intro hC hT
    rw [analyze_run_none_flow_eq, lookup_append, lookup_append,
        calc_connection_stats_lookup_count _ (isEmpty_false_of_ne_nil _ hC)
          (isEmpty_false_of_ne_nil _ hT)]
    simp [Option.orElse]
  · intro hL
    rw [analyze_run_none_flow_eq, lookup_append, lookup_append,
        calc_connection_stats_lookup_none _ _ (by decide),
        calc_link_stats_lookup_count _ (isEmpty_false_of_ne_nil _ hL)]
    simp [Option.orElse]
  · exact analyze_keys_pred (some flows) none (some links) fi co prec
      (fun s => !(strStartsWith s "connection_") && !(strStartsWith s "conn_"))
      (Or.inr (by decide)) (Or.inl hcc0) (Or.inr (by decide)) (by decide)
  · intro hF hT
    rw [analyze_run_none_conn_eq, lookup_append, lookup_append, lookup_append,
        calc_flow_stats_lookup_count _ (isEmpty_false_of_ne_nil _ hF)
          (isEmpty_false_of_ne_nil _ hT)]
    simp [Option.orElse]
  · intro hL
    rw [analyze_run_none_conn_eq, hcc0, List.append_nil, lookup_append,
        lookup_append, calc_flow_stats_lookup_none _ _ (by decide),
        calc_link_stats_lookup_count _ (isEmpty_false_of_ne_nil _ hL)]
    simp [Option.orElse]
  · exact analyze_keys_pred (some flows) (some conns) none fi co prec
      (fun s => !(strStartsWith s "link_")) (Or.inr (by decide))
      (Or.inr (by decide)) (Or.inl hll0) (by decide)
  · intro hF hT
    rw [analyze_run_none_link_eq, lookup_append, lookup_append, lookup_append,
        calc_flow_stats_lookup_count _ (isEmpty_false_of_ne_nil _ hF)
          (isEmpty_false_of_ne_nil _ hT)]
    simp [Option.orElse]
  · intro hC hT
    rw [analyze_run_none_link_eq, lookup_append, lookup_append, lookup_append,
        calc_flow_stats_lookup_none _ _ (by decide),
        calc_connection_stats_lookup_count _ (isEmpty_false_of_ne_nil _ hC)
          (isEmpty_false_of_ne_nil _ hT)]
    simp [Option.orElse]

/-- Witness for analyze_run_missing_file on the test fixtures: flow file
missing (connection_count still reported), connection file missing
(flow_count still reported), link file missing (connection_count still
reported). -/
theorem analyze_run_missing_file_witness :
    ((analyze_run none (some connFixture) (some []) true false 1).all
        (fun kv => !(strStartsWith kv.1 "flow_")) = true) ∧
    (analyze_run none (some connFixture) (some []) true false 1).lookup
        "connection_count" =
      some (.int ((preprocess_data [] connFixture [] true false).2.1.length)) ∧
    (analyze_run (some flowFixture) none (some []) true false 1).lookup
        "flow_count" =
      some (.int ((preprocess_data flowFixture [] [] true false).1.length)) ∧
    (analyze_run (some flowFixture) (some connFixture) none true false 1).lookup
        "connection_count" =
      some (.int ((preprocess_data flowFixture connFixture [] true false).2.1.length)) :=
  ⟨(analyze_run_missing_file flowFixture connFixture [] true false 1).1,
   (analyze_run_missing_file flowFixture connFixture [] true false 1).2.1
     (by with_unfolding_all decide) (by with_unfolding_all decide),
   (analyze_run_missing_file flowFixture connFixture [] true false 1).2.2.2.2.1
     (by with_unfolding_all decide) (by with_unfolding_all decide),
   (analyze_run_missing_file flowFixture connFixture [] true false 1).2.2.2.2.2.2.2.2
     (by with_unfolding_all decide) (by with_unfolding_all decide)⟩

/-- A flow frame in which every duration is zero has no finite throughput. -/
theorem flowThroughputs_eq_nil (flows : List FlowRec)
    (h : ∀ f ∈ flows, f.duration = 0) : flowThroughputs flows = [] := by
  rw [flowThroughputs, List.filterMap_eq_nil_iff]
  intro f hf
  simp [h f hf]

/-- A connection frame in which every duration is zero has no finite
throughput. -/
theorem connThroughputs_eq_nil (conns : List ConnRec)
    (h : ∀ c ∈ conns, c.duration = 0) : connThroughputs conns = [] := by
  rw [connThroughputs, List.filterMap_eq_nil_iff]
  intro c hc
  simp [h c hc]

/-- calc_flow_stats of an all-zero-duration frame is the empty dict. -/
theorem calc_flow_stats_zero_durations (flows : List FlowRec)
    (h : ∀ f ∈ flows, f.duration = 0) : calc_flow_stats flows = [] := by
  unfold calc_flow_stats
  dsimp only
  rw [flowThroughputs_eq_nil flows h]
  split <;> simp

/-- calc_connection_stats of an all-zero-duration frame is the empty dict. -/
theorem calc_connection_stats_zero_durations (conns : List ConnRec)
    (h : ∀ c ∈ conns, c.duration = 0) : calc_connection_stats conns = [] := by
  unfold calc_connection_stats
  dsimp only
  rw [connThroughputs_eq_nil conns h]
  split <;> simp

/-- C10: when the flow frame is nonempty but every flow has duration 0,
every per-flow throughput is non-finite and dropped, so calc_flow_stats
returns the empty dict — the result has no flow_* key at all, not even
flow_count; the same holds for calc_connection_stats, where the empty dict
additionally suppresses connection_count and connection_completion_rate:
the analysis result then has no flow_*, connection_* or conn_* key. -/
theorem zero_duration_stats (flows : List FlowRec) (conns : List ConnRec)
    (hf : flows ≠ []) (hfd : ∀ f ∈ flows, f.duration = 0)
    (hc : conns ≠ []) (hcd : ∀ c ∈ conns, c.duration = 0) :
    calc_flow_stats flows = [] ∧ calc_connection_stats conns = [] ∧
    (∀ fi co prec, (analyze_run (some flows) (some conns) none fi co prec).all
        (fun kv => !(strStartsWith kv.1 "flow_") &&
          !(strStartsWith kv.1 "connection_") &&
          !(strStartsWith kv.1 "conn_")) = true) := by
  refine ⟨calc_flow_stats_zero_durations flows hfd,
          calc_connection_stats_zero_durations conns hcd, ?_⟩
  intro fi co prec
  rw [List.all_eq_true]
  intro kv hkv
  rw [analyze_run_parts] at hkv
  have hfd' : ∀ f ∈ (preprocess_data ((some flows).getD [])
      ((some conns).getD []) ((none : Option (List LinkRec)).getD []) fi co).1,
      f.duration = 0 := by
    intro f hfm
    have hx : (preprocess_data flows conns [] fi co).1 =
        flows.map preprocessFlow := rfl
    rw [Option.getD_some] at hfm
    rw [Option.getD_some, Option.getD_none] at hfm
    rw [hx] at hfm
    rcases List.mem_map.1 hfm with ⟨f0, h0, rfl⟩
    simp [preprocessFlow, hfd f0 h0]
  have hcd' : ∀ c ∈ (preprocess_data ((some flows).getD [])
      ((some conns).getD []) ((none : Option (List LinkRec)).getD []) fi co).2.1,
      c.duration = 0 := by
    intro c hcm
    have hx : (preprocess_data flows conns [] fi co).2.1 =
        (if co then conns.filter (fun c => c.completed == "T") else conns).map
          preprocessConn := rfl
    rw [Option.getD_some] at hcm
    rw [Option.getD_some, Option.getD_none] at hcm
    rw [hx] at hcm
    rcases List.mem_map.1 hcm with ⟨c0, h0, rfl⟩
    have h0' : c0 ∈ conns := by
      rcases co
      · simpa using h0
      · exact (List.mem_filter.1 h0).1
    simp [preprocessConn, hcd c0 h0']
  rw [calc_flow_stats_zero_durations _ hfd',
      calc_connection_stats_zero_durations _ hcd'] at hkv
  have hlink : calc_link_stats ((preprocess_data ((some flows).getD [])
      ((some conns).getD []) ((none : Option (List LinkRec)).getD []) fi co).2.2)
      = [] := by
    rcases fi <;> rfl
  rw [hlink] at hkv
  simp only [List.nil_append] at hkv
  have hm := verif_mapped_keys _ _ _ _ kv hkv
  have hall : (verifCheckKeys.map (fun s => "verif_" ++ s)).all
      (fun s => !(strStartsWith s "flow_") && !(strStartsWith s "connection_")
        && !(strStartsWith s "conn_")) = true := by decide
  exact List.all_eq_true.1 hall kv.1 hm

/-- Witness for zero_duration_stats at one-row frames with duration 0. -/
theorem zero_duration_stats_witness :
    (([⟨0, 1, 5, "1-[0]->5", 0, 1000, 0, 5000, 5, ""⟩] : List FlowRec) ≠ [] ∧
     ([⟨0, 1, 5, 10000, 5000, "0", 0, 1000, 0, 5, "F", ""⟩] : List ConnRec) ≠ []) ∧
    calc_flow_stats [⟨0, 1, 5, "1-[0]->5", 0, 1000, 0, 5000, 5, ""⟩] = [] ∧
    calc_connection_stats [⟨0, 1, 5, 10000, 5000, "0", 0, 1000, 0, 5, "F", ""⟩] = [] :=
  ⟨⟨by decide, by decide⟩,
   (zero_duration_stats [⟨0, 1, 5, "1-[0]->5", 0, 1000, 0, 5000, 5, ""⟩]
      [⟨0, 1, 5, 10000, 5000, "0", 0, 1000, 0, 5, "F", ""⟩]
      (by decide) (by decide) (by decide) (by decide)).1,
   (zero_duration_stats [⟨0, 1, 5, "1-[0]->5", 0, 1000, 0, 5000, 5, ""⟩]
      [⟨0, 1, 5, 10000, 5000, "0", 0, 1000, 0, 5, "F", ""⟩]
      (by decide) (by decide) (by decide) (by decide)).2.1⟩

/-- pyRange over a whole number of steps is a map over List.range. -/
theorem pyRange_eq_map (start n step : ℕ) (hstep : 0 < step) :
    pyRange start (start + n * step) step =
      (List.range n).map (fun k => start + k * step) := by
  unfold pyRange
  have hcount : (start + n * step - start + step - 1) / step = n := by
    rw [Nat.add_sub_cancel_left]
    have h1 : n * step + step - 1 = (step - 1) + step * n := by
      rw [Nat.mul_comm n step]
      omega
    rw [h1, Nat.add_mul_div_left _ _ hstep, Nat.div_eq_of_lt (by omega)]
    omega
  rw [hcount]

/-- enum of a mapped range, mapped again, is a single map over the range. -/
theorem enum_map_range {α β : Type} (n : ℕ) (f : ℕ → α) (g : ℕ × α → β) :
    (((List.range n).map f).enum).map g =
      (List.range n).map (fun k => g (k, f k)) := by
  apply List.ext_getElem
  · simp [List.enum]
  · intro i h1 h2
    simp [List.enum, List.getElem_enumFrom, List.getElem_map, List.getElem_range]

/-- The server blocks of build_2_layer_undirected_edges in closed form:
block k spans radix consecutive host ids starting at
num_tors + num_cores + k·radix and attaches to ToR k. -/
theorem server_blocks_eq (num_tors num_cores num_hosts radix : ℕ)
    (ht : 0 < num_tors) (hr : 0 < radix) (hh : num_hosts = num_tors * radix) :
    (build_2_layer_undirected_edges num_tors num_cores num_hosts radix).2 =
      (List.range num_tors).map (fun k =>
        ⟨num_tors + num_cores + k * radix,
         num_tors + num_cores + k * radix + radix - 1, k⟩) := by
  unfold build_2_layer_undirected_edges
  dsimp only
  have hx : 0 < num_tors * radix := Nat.mul_pos ht hr
  have h1 : num_tors + num_cores + num_hosts - 1 + 1 =
      num_tors + num_cores + num_tors * radix := by omega
  rw [h1, pyRange_eq_map (num_tors + num_cores) num_tors radix hr, enum_map_range]
  simp

/-- C9: for every positive even num_tors the generated 2-layer topology is
consistent: with radix = num_tors / 2, num_hosts = num_tors · radix,
num_nodes = num_tors + radix + num_hosts and
num_undirected_edges = num_tors · (radix + radix); the edge-range encoding
connects the whole ToR range to the whole core range, and the server blocks
partition the server id range [num_tors + radix, num_tors + radix +
num_hosts − 1] into num_tors disjoint blocks of radix consecutive host ids,
block k attached to ToR k, each host covered by exactly one block. -/
theorem create_2_layer_topology_consistent (n : ℕ) (hpos : 0 < n)
    (heven : 2 ∣ n) :
    (create_2_layer_topology n).num_nodes = n + n / 2 + n * (n / 2) ∧
    (create_2_layer_topology n).num_undirected_edges = n * (n / 2 + n / 2) ∧
    (create_2_layer_topology n).switches_which_are_tors = (0, n - 1) ∧
    (create_2_layer_topology n).cores = (n, n + n / 2 - 1) ∧
    (create_2_layer_topology n).servers =
      (n + n / 2, n + n / 2 + n * (n / 2) - 1) ∧
    (create_2_layer_topology n).tor_core_edges = ((0, n - 1), (n, n + n / 2 - 1)) ∧
    (create_2_layer_topology n).server_tor_blocks =
      (List.range n).map (fun k =>
        ⟨n + n / 2 + k * (n / 2), n + n / 2 + k * (n / 2) + (n / 2) - 1, k⟩) ∧
    (∀ hst : ℕ, n + n / 2 ≤ hst → hst < n + n / 2 + n * (n / 2) →
      ∃! k : ℕ, k < n ∧ ∃ b : ServerBlock,
        (create_2_layer_topology n).server_tor_blocks[k]? = some b ∧
        b.first ≤ hst ∧ hst ≤ b.last ∧ b.tor = k) := by
  have hr : 0 < n / 2 := by omega
  have hblocks : (create_2_layer_topology n).server_tor_blocks =
      (List.range n).map (fun k =>
        ⟨n + n / 2 + k * (n / 2), n + n / 2 + k * (n / 2) + (n / 2) - 1, k⟩) :=
    server_blocks_eq n (n / 2) (n * (n / 2)) (n / 2) hpos hr rfl
  refine ⟨rfl, rfl, rfl, rfl, rfl, rfl, hblocks, ?_⟩
  intro hst h1 h2
  set r := n / 2 with hrdef
  set S := n + n / 2 with hSdef
  have hself : (hst - S) / r * r ≤ hst - S := Nat.div_mul_le_self (hst - S) r
  have hmod : r * ((hst - S) / r) + (hst - S) % r = hst - S := Nat.div_add_mod _ _
  have hmodlt : (hst - S) % r < r := Nat.mod_lt _ hr
  have hcomm : (hst - S) / r * r = r * ((hst - S) / r) := Nat.mul_comm _ _
  have hk0 : (hst - S) / r < n := by
    rw [Nat.div_lt_iff_lt_mul hr]
    have hnr : n * r = r * n := Nat.mul_comm _ _
    omega
  refine ⟨(hst - S) / r,
    ⟨hk0, ⟨⟨S + (hst - S) / r * r, S + (hst - S) / r * r + r - 1, (hst - S) / r⟩,
      ?_, ?_, ?_, rfl⟩⟩, ?_⟩
  · rw [hblocks]
    simp [List.getElem?_map, List.getElem?_range, hk0]
  · show S + (hst - S) / r * r ≤ hst
    omega
  · show hst ≤ S + (hst - S) / r * r + r - 1
    omega
  · rintro y ⟨hy, b', hb', hfirst, hlast, htor⟩
    rw [hblocks] at hb'
    simp only [List.getElem?_map, List.getElem?_range, hy, if_pos,
      Option.map_some', Option.some.injEq] at hb'
    subst hb'
    dsimp only at hfirst hlast
    have hyr : (y + 1) * r = y * r + r := Nat.succ_mul y r
    have hlo : y * r ≤ hst - S := by omega
    have hhi : hst - S < (y + 1) * r := by omega
    exact (Nat.div_eq_of_lt_le hlo hhi).symm

/-- Witness for create_2_layer_topology_consistent at num_tors = 4. -/
theorem create_2_layer_topology_consistent_witness :
    (0 < 4 ∧ 2 ∣ 4) ∧
    (create_2_layer_topology 4).server_tor_blocks =
      (List.range 4).map (fun k =>
        ⟨4 + 4 / 2 + k * (4 / 2), 4 + 4 / 2 + k * (4 / 2) + (4 / 2) - 1, k⟩) :=
  ⟨⟨by decide, by decide⟩,
   (create_2_layer_topology_consistent 4 (by decide) (by decide)).2.2.2.2.2.2.1⟩

/-- C1 (the code evaluated at the failing input): analyze_run on the
repository's own two-connection test fixture computes the connection_*
aggregates (connection_count = 2, connection_completion_rate = 0.5), and
the written bandwidth_results.statistics file does contain a
"## Connection Statistics" section — but no written line starts with
"connection_": every connection_* key is silently dropped by the section's
"conn_" prefix filter, and only the conn_throughput_* percentile keys are
written.  The flow_/link_/verif_ filters match their keys (checked here on
the verif_ keys of the same run), so only the connection category loses its
statistics. -/
theorem write_statistics_drops_connection_keys :
    (analyze_run none (some connFixture) none true false (1/1000000000)).lookup
        "connection_count" = some (.int 2) ∧
    (analyze_run none (some connFixture) none true false (1/1000000000)).lookup
        "connection_completion_rate" = some (.float (1/2)) ∧
    (write_statistics (analyze_run none (some connFixture) none true false
        (1/1000000000))).contains "## Connection Statistics" = true ∧
    ((write_statistics (analyze_run none (some connFixture) none true false
        (1/1000000000))).all (fun line => !(strStartsWith line "connection_"))) = true ∧
    (write_statistics (analyze_run none (some connFixture) none true false
        (1/1000000000))).contains "conn_throughput_50th=10.000000" = true ∧
    (write_statistics (analyze_run none (some connFixture) none true false
        (1/1000000000))).contains "verif_connection_bandwidth_valid=True" = true ∧
    (write_statistics (analyze_run none (some connFixture) none true false
        (1/1000000000))).contains "connection_count=2" = false := by
  with_unfolding_all decide

end SimPlatform
